import Mathlib

/-!
# Eco-Nest Living tab application (`src/App.jsx`)

A shallow embedding of the single source file: the static reference data, the
five screen components, the `Header` component, and the `App` shell with its one
piece of state (`activeTab`) and its bottom tab bar.

Rendered output is a tree of `VNode`s.  Every `onClick` handler in the source is a
call of `setActiveTab`, so handlers are represented by the value `Handler.setActiveTab tab`
and executed by `Handler.run`.
-/

namespace Swaps

/-! ## Platform string operations used by the source -/

/-- `String.prototype.toLowerCase`, on the ASCII range: `A`..`Z` are mapped to
`a`..`z`, every other character is kept.  (ECMAScript also maps non-ASCII
letters; all strings evaluated below are ASCII.) -/
def toLowerCase (s : String) : String :=
  ⟨s.data.map Char.toLower⟩

/-- Character-list worker of `replace`: the FIRST occurrence of `pat` is replaced by
`rep`; the rest of the input is kept. -/
def replaceChars : List Char → List Char → List Char → List Char
  | [], pat, rep => if pat = [] then rep else []
  | c :: cs, pat, rep =>
    if pat.isPrefixOf (c :: cs) then rep ++ (c :: cs).drop pat.length
    else c :: replaceChars cs pat rep

/-- `String.prototype.replace(pattern, replacement)` with a string pattern: only the
first occurrence of the pattern is replaced.  (The replacement used by the source,
`'-'`, has no `$` substitution pattern.) -/
def replace (s pat rep : String) : String :=
  ⟨replaceChars s.data pat.data rep.data⟩

/-! ## Rendered trees -/

/-- Click handlers of the source: `() => setActiveTab(tab)` and
`() => onNavigate('Calculators')` with `onNavigate = setActiveTab`. -/
inductive Handler where
  | setActiveTab (tab : String)
  deriving DecidableEq

/-- The JSX attributes used in the source. -/
structure Props where
  className : Option String := none
  key : Option String := none
  onClick : Option Handler := none
  deriving DecidableEq

/-- A rendered node: a text child or an element with attributes and children. -/
inductive VNode where
  | text (s : String)
  | elem (tag : String) (props : Props) (children : List VNode)

/-- Attributes of a node (a text node has none). -/
def VNode.props : VNode → Props
  | .text _ => {}
  | .elem _ p _ => p

/-- Children of a node (a text node has none). -/
def VNode.children : VNode → List VNode
  | .text _ => []
  | .elem _ _ cs => cs

mutual
/-- All text of a rendered tree, in document order. -/
def VNode.texts : VNode → List String
  | .text s => [s]
  | .elem _ _ cs => textsList cs
/-- All text of a list of rendered trees, in document order. -/
def textsList : List VNode → List String
  | [] => []
  | c :: cs => c.texts ++ textsList cs
end

/-- The concatenated text content of a node. -/
def VNode.textContent (n : VNode) : String :=
  String.join n.texts

/-! ## Static reference data (lines 3-103) -/

def TABS : List String := ["Home", "Calculators", "MyPlan", "NewTech", "Profile"]

structure UpgradeOption where
  id : String
  name : String
  category : String
  payback : String
  saving : String
  featured : Bool
  summary : String
  deriving DecidableEq

def upgrades : List UpgradeOption := [
  { id := "LED",
    name := "LED lighting swap",
    category := "Lighting",
    payback := "6-12 months",
    saving := "£55-£120/yr",
    featured := true,
    summary := "Replace halogen bulbs with LED fittings to cut energy use fast." },
  { id := "SMART_PLUG",
    name := "Smart plug timers",
    category := "Power",
    payback := "12-18 months",
    saving := "£30-£70/yr",
    featured := true,
    summary := "Kill standby power on media and kitchen devices with schedules." },
  { id := "DRAUGHT",
    name := "Draught proofing",
    category := "Insulation",
    payback := "1-2 years",
    saving := "£60-£90/yr",
    featured := false,
    summary := "Seal gaps around windows and doors to keep heat inside." }
]

structure EmergingTech where
  id : String
  name : String
  category : String
  status : String
  verdict : String
  summary : String
  deriving DecidableEq

def newTech : List EmergingTech := [
  { id := "THERMAL_STORAGE",
    name := "Thermal battery tiles",
    category := "Energy storage",
    status := "Early adopter",
    verdict := "Worth watching",
    summary := "Store off-peak electricity as heat for evening comfort." },
  { id := "HEAT_PUMP",
    name := "Compact air-source heat pump",
    category := "Heating",
    status := "Available now",
    verdict := "Recommended",
    summary := "Lower running costs for well-insulated homes." },
  { id := "SMART_GLASS",
    name := "Electrochromic smart glass",
    category := "Materials",
    status := "Not ready",
    verdict := "Too early",
    summary := "Tint-on-demand windows that manage solar gain." }
]

structure PlanItem where
  id : String
  name : String
  status : String
  target : String
  deriving DecidableEq

def planItems : List PlanItem := [
  { id := "PLAN-1", name := "LED lighting swap", status := "Planned", target := "May 2024" },
  { id := "PLAN-2", name := "Smart plug timers", status := "In Progress", target := "April 2024" }
]

structure CalculatorDescriptor where
  id : String
  label : String
  description : String
  deriving DecidableEq

def calculators : List CalculatorDescriptor := [
  { id := "LED",
    label := "LED Savings Calculator",
    description := "Estimate savings from replacing bulbs." },
  { id := "SMART_PLUG",
    label := "Smart Plug Savings Calculator",
    description := "Measure standby power savings." }
]

structure KPI where
  label : String
  value : String
  deriving DecidableEq

def kpis : List KPI := [
  { label := "Estimated savings", value := "£82 - £140 / yr" },
  { label := "Payback", value := "10 months" },
  { label := "10-year outlook", value := "£820 - £1,400" }
]

/-- The profile record.  The price is a JavaScript number; it is modelled as a
natural number (pence per kWh), whose template-literal rendering is its decimal
numeral. -/
structure UserProfile where
  electricity_price_p_kwh : Nat
  home_size : String
  usage_level : String
  reminders_enabled : Bool
  reminder_day : String
  reminder_time : String
  deriving DecidableEq

def userProfile : UserProfile :=
  { electricity_price_p_kwh := 28,
    home_size := "Medium",
    usage_level := "Average",
    reminders_enabled := true,
    reminder_day := "Mon",
    reminder_time := "18:00" }

/-! ## Components (lines 105-269) -/

/-- `Header({ title, subtitle })`.  `subtitle` is `none` when the property is not
passed; the subtitle paragraph is rendered only for a truthy (non-empty) subtitle. -/
def Header (title : String) (subtitle : Option String) : VNode :=
  .elem "header" { className := some "header" } [
    .elem "div" {} ([
      .elem "p" { className := some "eyebrow" } [.text "Eco-Nest Living"],
      .elem "h1" {} [.text title]] ++
      (match subtitle with
        | none => []
        | some sub =>
          if sub = "" then [] else [.elem "p" { className := some "subtitle" } [.text sub]])),
    .elem "div" { className := some "badge" } [.text "UK • GBP"]
  ]

/-- The card rendered for one upgrade in the featured section of `HomeScreen`. -/
def upgradeCard (item : UpgradeOption) : VNode :=
  .elem "article" { className := some "card", key := some item.id } [
    .elem "div" { className := some "card-top" } [
      .elem "span" { className := some "tag" } [.text item.category],
      .elem "span" { className := some "chip" } [.text item.payback]],
    .elem "h3" {} [.text item.name],
    .elem "p" {} [.text item.summary],
    .elem "div" { className := some "card-meta" } [.text "Typical saving: ", .text item.saving]
  ]

/-- The expression `upgrades.filter((item) => item.featured)` over a list of upgrades. -/
def featuredUpgrades (us : List UpgradeOption) : List UpgradeOption :=
  us.filter (fun item => item.featured)

/-- The children of the "Featured upgrades" card container. -/
def featuredCards (us : List UpgradeOption) : List VNode :=
  (featuredUpgrades us).map upgradeCard

/-- The list item rendered for one technology in the watchlist of `HomeScreen`. -/
def watchlistItem (item : EmergingTech) : VNode :=
  .elem "div" { className := some "list-item", key := some item.id } [
    .elem "div" {} [
      .elem "h3" {} [.text item.name],
      .elem "p" {} [.text item.summary]],
    .elem "div" { className := some "status" } [
      .elem "span" { className := some "tag" } [.text item.status],
      .elem "span" { className := some "chip" } [.text item.verdict]]
  ]

def HomeScreen (onNavigate : String → Handler) : VNode :=
  .elem "div" { className := some "screen" } [
    Header "Smarter eco upgrades — with numbers you can trust"
      (some "Personalised advice, quick calculators, and future-tech insight in one place."),
    .elem "button" { className := some "primary", onClick := some (onNavigate "Calculators") }
      [.text "Try a calculator"],
    .elem "section" {} [
      .elem "h2" {} [.text "Featured upgrades"],
      .elem "div" { className := some "cards" } (featuredCards upgrades)],
    .elem "section" {} [
      .elem "h2" {} [.text "New technology watchlist"],
      .elem "div" { className := some "list" } (newTech.map watchlistItem)]
  ]

def calculatorCard (c : CalculatorDescriptor) : VNode :=
  .elem "article" { className := some "card", key := some c.id } [
    .elem "h3" {} [.text c.label],
    .elem "p" {} [.text c.description],
    .elem "button" { className := some "secondary" } [.text "Start calculation"]
  ]

def kpiTile (kpi : KPI) : VNode :=
  .elem "div" { className := some "kpi", key := some kpi.label } [
    .elem "span" {} [.text kpi.label],
    .elem "strong" {} [.text kpi.value]
  ]

def CalculatorsScreen : VNode :=
  .elem "div" { className := some "screen" } [
    Header "Savings calculators" (some "Crunch the numbers in under 60 seconds."),
    .elem "div" { className := some "cards" } (calculators.map calculatorCard),
    .elem "section" {} [
      .elem "h2" {} [.text "Recent results"],
      .elem "div" { className := some "kpi-grid" } (kpis.map kpiTile)]
  ]

/-- The interpolated expression `item.status.toLowerCase().replace(' ', '-')` of line 206. -/
def statusSlug (status : String) : String :=
  replace (toLowerCase status) " " "-"

/-- The template literal of line 206, the `className` of the status pill. -/
def statusPillClassName (status : String) : String :=
  "status-pill status-" ++ statusSlug status

def planItemRow (item : PlanItem) : VNode :=
  .elem "div" { className := some "list-item", key := some item.id } [
    .elem "div" {} [
      .elem "h3" {} [.text item.name],
      .elem "p" {} [.text "Target: ", .text item.target]],
    .elem "span" { className := some (statusPillClassName item.status) } [.text item.status]
  ]

def MyPlanScreen : VNode :=
  .elem "div" { className := some "screen" } [
    Header "My plan" (some "Keep track of upgrades that deliver the fastest payback."),
    .elem "div" { className := some "list" } (planItems.map planItemRow),
    .elem "section" { className := some "premium" } [
      .elem "h2" {} [.text "Whole-home savings dashboard"],
      .elem "p" {} [.text
        "Unlock premium to see aggregated annual savings, carbon impact, and progress insights."],
      .elem "button" { className := some "secondary" } [.text "Upgrade to Premium"]]
  ]

def techCard (item : EmergingTech) : VNode :=
  .elem "article" { className := some "card", key := some item.id } [
    .elem "div" { className := some "card-top" } [
      .elem "span" { className := some "tag" } [.text item.category],
      .elem "span" { className := some "chip" } [.text item.status]],
    .elem "h3" {} [.text item.name],
    .elem "p" {} [.text item.summary],
    .elem "div" { className := some "card-meta" } [.text "Verdict: ", .text item.verdict]
  ]

def NewTechScreen : VNode :=
  .elem "div" { className := some "screen" } [
    Header "NewTech" (some "See what’s coming next in sustainable home living."),
    .elem "div" { className := some "cards" } (newTech.map techCard)
  ]

/-- One label/value row of the profile form. -/
structure Field where
  label : String
  value : String
  deriving DecidableEq

/-- The `fields` array of `ProfileScreen` (lines 244-251), for a profile record. -/
def profileFields (p : UserProfile) : List Field := [
  { label := "Electricity price (p/kWh)", value := toString p.electricity_price_p_kwh ++ "p" },
  { label := "Home size", value := p.home_size },
  { label := "Usage level", value := p.usage_level },
  { label := "Reminders enabled", value := if p.reminders_enabled then "Yes" else "No" },
  { label := "Reminder day", value := p.reminder_day },
  { label := "Reminder time", value := p.reminder_time }
]

def formRow (field : Field) : VNode :=
  .elem "div" { className := some "form-row", key := some field.label } [
    .elem "span" {} [.text field.label],
    .elem "strong" {} [.text field.value]
  ]

def ProfileScreen : VNode :=
  .elem "div" { className := some "screen" } [
    Header "Profile" (some "Keep your household details up to date."),
    .elem "div" { className := some "form" } ((profileFields userProfile).map formRow),
    .elem "button" { className := some "primary" } [.text "Upgrade to Premium"]
  ]

/-! ## The application shell (lines 271-306) -/

/-- The state of `App`: the value held by `useState`. -/
structure AppState where
  activeTab : String
  deriving DecidableEq

/-- The state after `useState('Home')`. -/
def AppState.initial : AppState := { activeTab := "Home" }

/-- The state setter returned by `useState`. -/
def setActiveTab (tab : String) (s : AppState) : AppState :=
  { s with activeTab := tab }

/-- Running a click handler. -/
def Handler.run : Handler → AppState → AppState
  | .setActiveTab tab, s => Swaps.setActiveTab tab s

/-- Clicking a rendered node: its `onClick` handler, if it has one, is run. -/
def click (n : VNode) (s : AppState) : AppState :=
  match n.props.onClick with
  | some h => h.run s
  | none => s

/-- The `switch (activeTab)` of lines 274-288. -/
def screen (activeTab : String) : VNode :=
  if activeTab = "Calculators" then CalculatorsScreen
  else if activeTab = "MyPlan" then MyPlanScreen
  else if activeTab = "NewTech" then NewTechScreen
  else if activeTab = "Profile" then ProfileScreen
  else HomeScreen Handler.setActiveTab

/-- One button of the bottom tab bar (lines 295-301). -/
def tabButton (activeTab tab : String) : VNode :=
  .elem "button"
    { key := some tab,
      className := some (if tab = activeTab then "active" else ""),
      onClick := some (Handler.setActiveTab tab) }
    [.elem "span" {} [.text tab]]

/-- The buttons of `<nav className="bottom-tabs">`. -/
def bottomTabs (activeTab : String) : List VNode :=
  TABS.map (tabButton activeTab)

/-- The tree returned by `App` in a given state. -/
def App (s : AppState) : VNode :=
  .elem "div" { className := some "app" } [
    .elem "main" {} [screen s.activeTab],
    .elem "nav" { className := some "bottom-tabs" } (bottomTabs s.activeTab)
  ]

/-- The view shown in a state: the child of `<main>`. -/
def currentView (s : AppState) : VNode :=
  screen s.activeTab

/-! ## Statements of the specification, in its own words -/

/-- Replacing a space by a hyphen, for one character. -/
def hyphenate (c : Char) : Char :=
  if c = ' ' then '-' else c

/-- The status formatting as the specification words it: the status lower-cased,
with every space replaced by a hyphen. -/
def specStatusSlug (status : String) : String :=
  ⟨(toLowerCase status).data.map hyphenate⟩

/-- The status-pill style key as the specification words it: `status-` followed by
the lower-cased status with every space replaced by a hyphen. -/
def specStatusKey (status : String) : String :=
  "status-" ++ specStatusSlug status

/-! ## Auxiliary facts -/

/-- The five screens, in the order of `TABS`. -/
def screens : List VNode :=
  [HomeScreen Handler.setActiveTab, CalculatorsScreen, MyPlanScreen, NewTechScreen, ProfileScreen]

/-- The title and subtitle region of a screen: the first three texts of its tree
(eyebrow, title, subtitle). -/
def VNode.heading (n : VNode) : List String :=
  n.texts.take 3

theorem ne_of_heading_ne {a b : VNode} (h : a.heading ≠ b.heading) : a ≠ b :=
  fun hab => h (congrArg VNode.heading hab)

theorem screen_of_not_mem_TABS {t : String} (h : t ∉ TABS) :
    screen t = HomeScreen Handler.setActiveTab := by
  simp only [TABS, List.mem_cons, List.mem_singleton, List.not_mem_nil, or_false, not_or] at h
  obtain ⟨_, h1, h2, h3, h4⟩ := h
  simp [screen, h1, h2, h3, h4]

theorem screen_mem_screens (t : String) : screen t ∈ screens := by
  unfold screen screens
  split_ifs <;> simp

/-! ### The status formatting of the code against the wording of the specification

With at most one space in the status, the first-occurrence `replace` of the code and
the every-space replacement of the specification agree, and the formatting is then
idempotent; the every-space formatting is idempotent for every status. -/

theorem toLower_toLower (c : Char) : c.toLower.toLower = c.toLower := by
  by_cases h : c.toNat ≥ 65 ∧ c.toNat ≤ 90
  · obtain ⟨h1, h2⟩ := h
    have : c = Char.ofNat c.toNat := by simp
    generalize c.toNat = n at *
    subst this
    interval_cases n <;> decide
  · have : c.toLower = c := by
      unfold Char.toLower
      simp only [h, if_false]
    rw [this, this]

theorem toLower_eq_space (c : Char) : c.toLower = ' ' ↔ c = ' ' := by
  by_cases h : c.toNat ≥ 65 ∧ c.toNat ≤ 90
  · obtain ⟨h1, h2⟩ := h
    have : c = Char.ofNat c.toNat := by simp
    generalize c.toNat = n at *
    subst this
    interval_cases n <;> decide
  · have : c.toLower = c := by
      unfold Char.toLower
      simp only [h, if_false]
    rw [this]

theorem map_hyphenate_of_no_space (l : List Char) (h : ' ' ∉ l) : l.map hyphenate = l := by
  induction l with
  | nil => rfl
  | cons c cs ih =>
    simp only [List.mem_cons, not_or] at h
    have hc : c ≠ ' ' := fun e => h.1 e.symm
    simp [hyphenate, hc, ih h.2]

theorem replaceChars_space_cons (c : Char) (cs : List Char) :
    replaceChars (c :: cs) [' '] ['-'] =
      if c = ' ' then '-' :: cs else c :: replaceChars cs [' '] ['-'] := by
  by_cases hc : c = ' '
  · subst hc
    simp [replaceChars, List.isPrefixOf]
  · have : (' ' == c) = false := by simpa using fun e => hc e.symm
    simp [replaceChars, List.isPrefixOf, hc, this]

theorem replaceChars_eq_map (l : List Char) (h : l.count ' ' ≤ 1) :
    replaceChars l [' '] ['-'] = l.map hyphenate := by
  induction l with
  | nil => simp [replaceChars]
  | cons c cs ih =>
    rw [replaceChars_space_cons]
    by_cases hc : c = ' '
    · subst hc
      have h0 : ' ' ∉ cs := by
        rw [List.count_cons_self] at h
        exact List.count_eq_zero.mp (by omega)
      simp [hyphenate, map_hyphenate_of_no_space cs h0]
    · have hcount : cs.count ' ' ≤ 1 := by
        rw [List.count_cons_of_ne (Ne.symm hc)] at h
        exact h
      simp [hyphenate, hc, ih hcount]

theorem count_space_map_toLower (l : List Char) :
    (l.map Char.toLower).count ' ' = l.count ' ' := by
  induction l with
  | nil => rfl
  | cons c cs ih =>
    by_cases hc : c = ' '
    · subst hc
      simp [ih]
    · have : c.toLower ≠ ' ' := fun e => hc ((toLower_eq_space c).mp e)
      rw [List.map_cons, List.count_cons_of_ne (Ne.symm this),
        List.count_cons_of_ne (Ne.symm hc), ih]

theorem space_not_mem_map_hyphenate (l : List Char) : ' ' ∉ l.map hyphenate := by
  intro h
  obtain ⟨c, _, hc⟩ := List.mem_map.mp h
  unfold hyphenate at hc
  split_ifs at hc with h1
  · exact absurd hc (by decide)
  · exact h1 hc

theorem statusSlug_eq_spec (s : String) (h : s.data.count ' ' ≤ 1) :
    statusSlug s = specStatusSlug s := by
  unfold statusSlug specStatusSlug replace
  congr 1
  exact replaceChars_eq_map _ (by simpa [toLowerCase, count_space_map_toLower] using h)

theorem specStatusSlug_idempotent (s : String) :
    specStatusSlug (specStatusSlug s) = specStatusSlug s := by
  unfold specStatusSlug toLowerCase
  congr 1
  simp only [List.map_map]
  apply List.map_congr_left
  intro c _
  simp only [Function.comp]
  by_cases hc : c.toLower = ' '
  · simp [hyphenate, hc]
  · have h1 : hyphenate c.toLower = c.toLower := by simp [hyphenate, hc]
    rw [h1, toLower_toLower, h1]

theorem statusSlug_idempotent_of_count_le_one (s : String) (h : s.data.count ' ' ≤ 1) :
    statusSlug (statusSlug s) = statusSlug s := by
  rw [statusSlug_eq_spec s h]
  have h0 : (specStatusSlug s).data.count ' ' ≤ 1 := by
    have : (specStatusSlug s).data.count ' ' = 0 :=
      List.count_eq_zero.mpr (space_not_mem_map_hyphenate _)
    omega
  rw [statusSlug_eq_spec _ h0, specStatusSlug_idempotent]

/-! ## Claims -/

/-- C1: for every tab of the enumeration `TABS` (Home, Calculators, MyPlan, NewTech,
Profile), selecting it from any state makes the current view the screen associated
with it, in that order HomeScreen, CalculatorsScreen, MyPlanScreen, NewTechScreen,
ProfileScreen; and these five rendered screens are pairwise distinct. -/
theorem select_shows_associated_screen (s : AppState) :
    TABS.map (fun t => currentView (setActiveTab t s)) =
      [HomeScreen Handler.setActiveTab, CalculatorsScreen, MyPlanScreen, NewTechScreen,
        ProfileScreen] ∧
    List.Pairwise (fun a b => a ≠ b)
      [HomeScreen Handler.setActiveTab, CalculatorsScreen, MyPlanScreen, NewTechScreen,
        ProfileScreen] := by
  refine ⟨by simp [TABS, currentView, setActiveTab, screen], ?_⟩
  simp only [List.pairwise_cons, List.mem_cons, List.mem_singleton, List.not_mem_nil,
    forall_eq_or_imp, forall_eq, List.Pairwise.nil, and_true, IsEmpty.forall_iff,
    implies_true]
  refine ⟨⟨?_, ?_, ?_, ?_⟩, ⟨?_, ?_, ?_⟩, ⟨?_, ?_⟩, ?_⟩ <;>
    exact ne_of_heading_ne (by decide)

/-- C2: for a tab value that is not one of the five enumerated identifiers, the view
is the Home view, both as the view of that value and after selecting it in any
state; the view mapping is total: every tab value is mapped to one of the five
screens. -/
theorem unknown_tab_shows_home (t : String) (h : t ∉ TABS) :
    screen t = HomeScreen Handler.setActiveTab ∧
    (∀ s : AppState, currentView (setActiveTab t s) = HomeScreen Handler.setActiveTab) ∧
    (∀ a : String, screen a ∈ screens) :=
  ⟨screen_of_not_mem_TABS h, fun _ => screen_of_not_mem_TABS h, screen_mem_screens⟩

theorem unknown_tab_shows_home_witness :
    "Settings" ∉ TABS ∧
    screen "Settings" = HomeScreen Handler.setActiveTab ∧
    currentView (setActiveTab "Settings" AppState.initial) = HomeScreen Handler.setActiveTab :=
  ⟨by decide, (unknown_tab_shows_home "Settings" (by decide)).1,
    (unknown_tab_shows_home "Settings" (by decide)).2.1 AppState.initial⟩

/-- C3: the featured section of the Home view holds exactly the upgrades whose
featured flag is true, each as often as it is declared and in declaration order (a
sublist of the declared list); the section of the rendered Home view is built from
that list, and for the shipped data it is the two cards "LED lighting swap", "Smart
plug timers", with "Draught proofing" nowhere in the Home view. -/
theorem featured_section_exact (us : List UpgradeOption) (onNavigate : String → Handler) :
    (∀ u, u ∈ featuredUpgrades us ↔ u ∈ us ∧ u.featured = true) ∧
    (∀ u, u.featured = true → (featuredUpgrades us).count u = us.count u) ∧
    (featuredUpgrades us).Sublist us ∧
    (featuredCards us).length = (featuredUpgrades us).length ∧
    (((HomeScreen onNavigate).children.get? 2).bind (fun n => n.children.get? 1)).map
      VNode.children = some (featuredCards upgrades) ∧
    (featuredUpgrades upgrades).map UpgradeOption.name =
      ["LED lighting swap", "Smart plug timers"] ∧
    (featuredCards upgrades).map (fun c => (c.children.get? 1).map VNode.textContent) =
      [some "LED lighting swap", some "Smart plug timers"] ∧
    "Draught proofing" ∉ textsList (featuredCards upgrades) := by
  refine ⟨?_, ?_, ?_, ?_, rfl, by decide, by decide, by decide⟩
  · intro u
    simp [featuredUpgrades, List.mem_filter]
  · intro u hu
    unfold featuredUpgrades
    rw [List.count_filter]
    simpa using hu
  · exact List.filter_sublist us
  · simp [featuredCards]

/-- C6: re-selecting the active tab is a no-op: in a state whose current tab is `t`,
`select(t)` gives back the same state, the same current view and the same rendered
application; and in any state, selecting `t` twice equals selecting it once. -/
theorem reselect_active_tab_noop (s : AppState) (t : String) (h : s.activeTab = t) :
    setActiveTab t s = s ∧
    currentView (setActiveTab t s) = currentView s ∧
    App (setActiveTab t s) = App s ∧
    (∀ s0 : AppState, setActiveTab t (setActiveTab t s0) = setActiveTab t s0) := by
  subst h
  exact ⟨rfl, rfl, rfl, fun _ => rfl⟩

theorem reselect_active_tab_noop_witness :
    (setActiveTab "MyPlan" AppState.initial).activeTab = "MyPlan" ∧
    setActiveTab "MyPlan" (setActiveTab "MyPlan" AppState.initial) =
      setActiveTab "MyPlan" AppState.initial ∧
    currentView (setActiveTab "MyPlan" (setActiveTab "MyPlan" AppState.initial)) =
      MyPlanScreen :=
  ⟨rfl, (reselect_active_tab_noop (setActiveTab "MyPlan" AppState.initial) "MyPlan" rfl).1,
    rfl⟩

/-- C7: the tab bar of the rendered application consists of one button per entry
of `TABS`, in the order of `TABS` (keys and labels are the tab names); when the
current tab is in the enumeration, the buttons marked `active` are exactly one, the
button of the current tab, and a button is marked active only if its tab is the
current tab; clicking the button of a tab sets the current tab to that tab. -/
theorem tab_bar_controls (s : AppState) (h : s.activeTab ∈ TABS) :
    ((App s).children.get? 1).map VNode.children = some (bottomTabs s.activeTab) ∧
    (bottomTabs s.activeTab).map (fun b => b.props.key) = TABS.map some ∧
    (bottomTabs s.activeTab).map VNode.textContent = TABS ∧
    (bottomTabs s.activeTab).filter (fun b => decide (b.props.className = some "active")) =
      [tabButton s.activeTab s.activeTab] ∧
    (∀ t, (tabButton s.activeTab t).props.className = some "active" ↔ t = s.activeTab) ∧
    (bottomTabs s.activeTab).map (fun b => (click b s).activeTab) = TABS ∧
    (∀ t, click (tabButton s.activeTab t) s = setActiveTab t s) := by
  obtain ⟨a⟩ := s
  have hact : ∀ t, (tabButton a t).props.className = some "active" ↔ t = a := by
    intro t
    simp only [tabButton, VNode.props]
    split_ifs with ht
    · simp [ht]
    · simp [ht]
  refine ⟨rfl, rfl, rfl, ?_, hact, rfl, fun _ => rfl⟩
  simp only [TABS, List.mem_cons, List.mem_singleton, List.not_mem_nil, or_false] at h
  rcases h with h | h | h | h | h <;> subst h <;> rfl

theorem tab_bar_controls_witness :
    (setActiveTab "NewTech" AppState.initial).activeTab ∈ TABS ∧
    (bottomTabs "NewTech").map (fun b => b.props.className) =
      [some "", some "", some "", some "active", some ""] ∧
    (bottomTabs "NewTech").filter (fun b => decide (b.props.className = some "active")) =
      [tabButton "NewTech" "NewTech"] :=
  ⟨by decide, by decide,
    (tab_bar_controls (setActiveTab "NewTech" AppState.initial) (by decide)).2.2.2.1⟩

/-- C8: for every profile record there is exactly one "Reminders enabled" row; its
value is "Yes" if and only if the reminders-enabled boolean is true and "No" if and
only if it is false; in the rendered Profile view of the shipped profile that row
reads "Yes". -/
theorem reminders_row_yes_iff (p : UserProfile) :
    (∃ v, (profileFields p).filter (fun f => decide (f.label = "Reminders enabled")) =
        [{ label := "Reminders enabled", value := v }] ∧
      (v = "Yes" ↔ p.reminders_enabled = true) ∧
      (v = "No" ↔ p.reminders_enabled = false)) ∧
    ((ProfileScreen.children.get? 1).bind (fun n => n.children.get? 3)).map VNode.texts =
      some ["Reminders enabled", "Yes"] := by
  refine ⟨⟨if p.reminders_enabled then "Yes" else "No", ?_, ?_, ?_⟩, by decide⟩
  · simp [profileFields]
  · cases p.reminders_enabled <;> simp
  · cases p.reminders_enabled <;> simp

/-- C9, as stated, fails: the electricity price row of the shipped profile is "28p",
which is not the price followed by a percentage sign, and no row of the shipped
profile contains a percentage sign. -/
theorem price_row_is_not_percent :
    (profileFields userProfile).head? =
      some { label := "Electricity price (p/kWh)", value := "28p" } ∧
    (profileFields userProfile).head?.map Field.value ≠
      some (toString userProfile.electricity_price_p_kwh ++ "%") ∧
    (∀ f ∈ profileFields userProfile, '%' ∉ f.value.data) := by
  decide

/-- C9, amended: the Profile view has six rows in the declared order (electricity
price, home size, usage level, reminders enabled, reminder day, reminder time); the
price row is the decimal price followed by the suffix "p" (pence), the reminders row
is "Yes" or "No", and the other four rows are the literal text of the record; the
rendered form of the shipped profile consists of exactly these rows. -/
theorem profile_rows_format (p : UserProfile) :
    (profileFields p).map Field.label =
      ["Electricity price (p/kWh)", "Home size", "Usage level", "Reminders enabled",
        "Reminder day", "Reminder time"] ∧
    (profileFields p).map Field.value =
      [toString p.electricity_price_p_kwh ++ "p", p.home_size, p.usage_level,
        if p.reminders_enabled then "Yes" else "No", p.reminder_day, p.reminder_time] ∧
    (ProfileScreen.children.get? 1).map VNode.children =
      some ((profileFields userProfile).map formRow) ∧
    (ProfileScreen.children.get? 1).map (fun n => n.children.map VNode.texts) =
      some [["Electricity price (p/kWh)", "28p"], ["Home size", "Medium"],
        ["Usage level", "Average"], ["Reminders enabled", "Yes"], ["Reminder day", "Mon"],
        ["Reminder time", "18:00"]] :=
  ⟨rfl, rfl, rfl, by decide⟩

/-- C10: in the static reference data the upgrade ids, the technology ids, the
plan-item ids, the calculator ids and the KPI labels are each free of duplicates,
and so are the list keys the renderers derive from them. -/
theorem static_ids_unique :
    (upgrades.map UpgradeOption.id).Nodup ∧
    (newTech.map EmergingTech.id).Nodup ∧
    (planItems.map PlanItem.id).Nodup ∧
    (calculators.map CalculatorDescriptor.id).Nodup ∧
    (kpis.map KPI.label).Nodup ∧
    ((featuredCards upgrades).map (fun n => n.props.key)).Nodup ∧
    ((newTech.map watchlistItem).map (fun n => n.props.key)).Nodup ∧
    ((newTech.map techCard).map (fun n => n.props.key)).Nodup ∧
    ((planItems.map planItemRow).map (fun n => n.props.key)).Nodup ∧
    ((calculators.map calculatorCard).map (fun n => n.props.key)).Nodup ∧
    ((kpis.map kpiTile).map (fun n => n.props.key)).Nodup := by
  decide

/-- C4, as stated, fails: for the status string "Not Yet Started" the class name
computed by line 206 is "status-pill status-not-yet started", in which only the
first space is replaced, whereas the status lower-cased with every space replaced
gives the key "status-not-yet-started". -/
theorem status_key_not_every_space :
    statusPillClassName "Not Yet Started" = "status-pill status-not-yet started" ∧
    specStatusKey "Not Yet Started" = "status-not-yet-started" ∧
    statusPillClassName "Not Yet Started" ≠ "status-pill " ++ specStatusKey "Not Yet Started" ∧
    ¬ (∀ s : String, statusPillClassName s = "status-pill " ++ specStatusKey s) := by
  refine ⟨by decide, by decide, by decide, fun h => ?_⟩
  exact absurd (h "Not Yet Started") (by decide)

/-- C4, amended: for every plan-item status string with at most one space, the
class name of the MyPlan status pill is "status-pill" followed by the style key
"status-" and the status lower-cased with its space replaced by a hyphen, and this
is the class name of the pill rendered for any plan item with that status; every
status of the shipped plan items has at most one space, their pills carry the keys
"status-planned" and "status-in-progress", and in particular "In Progress" gives
"status-in-progress". -/
theorem status_key_of_at_most_one_space (s : String) (h : s.data.count ' ' ≤ 1) :
    statusPillClassName s = "status-pill " ++ specStatusKey s ∧
    (∀ item : PlanItem, item.status = s →
      (planItemRow item).children.map (fun n => n.props.className) =
        [none, some ("status-pill " ++ specStatusKey s)]) ∧
    (∀ item ∈ planItems, item.status.data.count ' ' ≤ 1) ∧
    ((MyPlanScreen.children.get? 1).map
        (fun n => n.children.map
          (fun row => (row.children.get? 1).bind (fun pill => pill.props.className)))) =
      some [some "status-pill status-planned", some "status-pill status-in-progress"] ∧
    specStatusKey "In Progress" = "status-in-progress" ∧
    statusPillClassName "In Progress" = "status-pill status-in-progress" := by
  have hkey : statusPillClassName s = "status-pill " ++ specStatusKey s := by
    unfold statusPillClassName specStatusKey
    rw [statusSlug_eq_spec s h, ← String.append_assoc]
    rfl
  refine ⟨hkey, ?_, by decide, by decide, by decide, by decide⟩
  intro item hitem
  subst hitem
  simp only [planItemRow, VNode.children, List.map_cons, List.map_nil, VNode.props, hkey]

theorem status_key_of_at_most_one_space_witness :
    "In Progress".data.count ' ' ≤ 1 ∧
    statusPillClassName "In Progress" = "status-pill " ++ specStatusKey "In Progress" :=
  ⟨by decide, (status_key_of_at_most_one_space "In Progress" (by decide)).1⟩

/-- C5, as stated, fails: formatting the status string "Not Yet Started" gives
"not-yet started", and formatting that result again gives "not-yet-started", which
is a different string; so the formatting of line 206 is not idempotent for every
status string. -/
theorem status_format_not_idempotent :
    statusSlug "Not Yet Started" = "not-yet started" ∧
    statusSlug (statusSlug "Not Yet Started") = "not-yet-started" ∧
    statusSlug (statusSlug "Not Yet Started") ≠ statusSlug "Not Yet Started" ∧
    ¬ (∀ s : String, statusSlug (statusSlug s) = statusSlug s) := by
  refine ⟨by decide, by decide, by decide, fun h => ?_⟩
  exact absurd (h "Not Yet Started") (by decide)

/-- C5, amended: for every status string with at most one space, formatting the
already formatted string (lower-case, then replace the space by a hyphen, as line
206 does) gives the same result as formatting the status once; this covers every
status of the shipped plan items, whose formatted values are "planned" and
"in-progress". -/
theorem status_format_idempotent_of_at_most_one_space (s : String)
    (h : s.data.count ' ' ≤ 1) :
    statusSlug (statusSlug s) = statusSlug s ∧
    (∀ item ∈ planItems, item.status.data.count ' ' ≤ 1 ∧
      statusSlug (statusSlug item.status) = statusSlug item.status) ∧
    planItems.map (fun item => statusSlug item.status) = ["planned", "in-progress"] :=
  ⟨statusSlug_idempotent_of_count_le_one s h, by decide, by decide⟩

theorem status_format_idempotent_of_at_most_one_space_witness :
    "In Progress".data.count ' ' ≤ 1 ∧
    statusSlug "In Progress" = "in-progress" ∧
    statusSlug (statusSlug "In Progress") = statusSlug "In Progress" :=
  ⟨by decide, by decide,
    (status_format_idempotent_of_at_most_one_space "In Progress" (by decide)).1⟩

end Swaps
